import Mathlib

/-!
Shallow embedding of `src/virtualdesktop-openxr/system.cpp` (VirtualDesktop-OpenXR):
the system bring-up layer (`xrGetSystem`, `xrGetSystemProperties`,
`xrEnumerateEnvironmentBlendModes`, `initializeOVR`, `ensureOVRSession`,
`initializeSystem`).

External calls (service probe, settings, registry lookup, LibOVR entry points,
QueryPerformanceCounter/Frequency) are modelled by an `Env` oracle supplying the
values each call returns during one bring-up attempt.  The `OpenXrRuntime`
member variables touched by this file form `RuntimeState`.  A `CHECK_OVRCMD`
failure (a thrown exception) is modelled as `Except.error`.  Double-precision
time values are modelled as exact rationals.
-/

namespace VDXR

/-- `XR_TYPE_SYSTEM_GET_INFO` structure-kind tag. -/
def XR_TYPE_SYSTEM_GET_INFO : Nat := 4

/-- `XR_TYPE_SYSTEM_PROPERTIES` structure-kind tag. -/
def XR_TYPE_SYSTEM_PROPERTIES : Nat := 5

/-- `XR_TYPE_SYSTEM_EYE_GAZE_INTERACTION_PROPERTIES_EXT` structure-kind tag. -/
def XR_TYPE_SYSTEM_EYE_GAZE_INTERACTION_PROPERTIES_EXT : Nat := 1000030000

/-- `XR_TYPE_SYSTEM_HEADSET_ID_PROPERTIES_META` structure-kind tag. -/
def XR_TYPE_SYSTEM_HEADSET_ID_PROPERTIES_META : Nat := 1000245000

/-- `XR_FORM_FACTOR_HEAD_MOUNTED_DISPLAY`. -/
def XR_FORM_FACTOR_HEAD_MOUNTED_DISPLAY : Nat := 1

/-- `XR_VIEW_CONFIGURATION_TYPE_PRIMARY_STEREO`. -/
def XR_VIEW_CONFIGURATION_TYPE_PRIMARY_STEREO : Nat := 2

/-- `XR_ENVIRONMENT_BLEND_MODE_OPAQUE`. -/
def XR_ENVIRONMENT_BLEND_MODE_OPAQUE : Nat := 1

/-- `ovrMaxLayerCount` from the OVR SDK headers. -/
def ovrMaxLayerCount : Nat := 16

/-- The `XrResult` codes this file can return. -/
inductive XrResult where
  | success
  | errorValidationFailure
  | errorHandleInvalid
  | errorSystemInvalid
  | errorFormFactorUnsupported
  | errorFormFactorUnavailable
  | errorViewConfigurationTypeUnsupported
  | errorSizeInsufficient
deriving DecidableEq, Repr

/-- The `ovrResult` codes distinguished by this file: `ovrError_LibLoad`,
`ovrError_ServiceConnection`, `ovrError_RemoteSession`, `ovrError_NoHmd` are
tested explicitly; every other failure code trips `CHECK_OVRCMD`. -/
inductive OvrResult where
  | success
  | libLoad
  | serviceConnection
  | remoteSession
  | noHmd
  | otherFailure
deriving DecidableEq, Repr

/-- A fatal, non-returning path: a thrown exception.  `ovrCmdFailed` models a
`CHECK_OVRCMD` throw on an unexpected `ovrResult`; `missingRegistryValue`
models `std::bad_optional_access` from `RegGetString(...).value()` when the
Virtual Desktop Streamer install path is absent. -/
inductive FatalError where
  | ovrCmdFailed
  | missingRegistryValue
deriving DecidableEq, Repr

/-- `ovrFovPort`: tangents of the four half-angles. -/
structure OvrFovPort where
  upTan : ℚ
  downTan : ℚ
  leftTan : ℚ
  rightTan : ℚ
deriving DecidableEq, Repr

/-- `ovrPosef`: position plus orientation quaternion. -/
structure OvrPosef where
  px : ℚ
  py : ℚ
  pz : ℚ
  qx : ℚ
  qy : ℚ
  qz : ℚ
  qw : ℚ
deriving DecidableEq, Repr

/-- The parts of `ovrEyeRenderDesc` this file reads: the field of view returned
by `ovr_GetRenderDesc` and the head-to-eye pose. -/
structure OvrEyeRenderDesc where
  fov : OvrFovPort
  hmdToEyePose : OvrPosef
deriving DecidableEq, Repr

/-- A left/right pair, indexed in the source by `xr::StereoView::Left/Right`. -/
structure StereoPair (α : Type) where
  left : α
  right : α
deriving DecidableEq, Repr

/-- The fields of `ovrHmdDesc` this file reads. -/
structure OvrHmdDesc where
  vendorId : Nat
  productId : Nat
  manufacturer : String
  productName : String
  serialNumber : String
  firmwareMinor : Nat
  firmwareMajor : Nat
  resolutionW : Nat
  resolutionH : Nat
  displayRefreshRate : ℚ
  defaultEyeFov : StereoPair OvrFovPort
deriving DecidableEq, Repr

/-- Zero-initialised `ovrHmdDesc`, the value of `m_cachedHmdInfo = {}`. -/
def OvrHmdDesc.empty : OvrHmdDesc :=
  { vendorId := 0, productId := 0, manufacturer := "", productName := "",
    serialNumber := "", firmwareMinor := 0, firmwareMajor := 0,
    resolutionW := 0, resolutionH := 0, displayRefreshRate := 0,
    defaultEyeFov := ⟨⟨0, 0, 0, 0⟩, ⟨0, 0, 0, 0⟩⟩ }

/-- `XrFovf`, the four signed angles cached in `m_cachedEyeFov`.  The source
stores `±atan(tan)`; since `atan` is injective and odd, the angle `-atan t`
is represented here by the signed tangent `-t` (and `atan t` by `t`), so that
equality of these representatives coincides with equality of the computed
angle values. -/
structure XrFovf where
  angleDown : ℚ
  angleUp : ℚ
  angleLeft : ℚ
  angleRight : ℚ
deriving DecidableEq, Repr

/-- The `m_cachedEyeFov[i]` computation of `initializeSystem`:
`angleDown = -atan(DownTan)`, `angleUp = atan(UpTan)`,
`angleLeft = -atan(LeftTan)`, `angleRight = atan(RightTan)`, in the signed
tangent representation of `XrFovf`. -/
def xrFovFromOvrFov (f : OvrFovPort) : XrFovf :=
  { angleDown := -f.downTan, angleUp := f.upTan,
    angleLeft := -f.leftTan, angleRight := f.rightTan }

/-- `m_eyeTrackingType` values (`EyeTracking::None/Mmf/Simulated`). -/
inductive EyeTracking where
  | none
  | mmf
  | simulated
deriving DecidableEq, Repr

/-- `ovrTrackingOrigin` values. -/
inductive TrackingOrigin where
  | eyeLevel
  | floorLevel
deriving DecidableEq, Repr

/-- Oracle for every external call made during one bring-up attempt:
the service-presence probe, the two `getSetting` keys, the registry path
lookup, the result codes of the LibOVR calls, the host counter frequency, and
the per-round clock samples of the calibration loop (round `i` reads host
counter `qpcSample i` then backend clock `ovrTimeSample i`). -/
structure Env where
  isServiceRunning : Bool
  allowOculusRuntime : Option Bool
  simulateEyeTracking : Option Bool
  streamerPath : Option String
  initResult : OvrResult
  createResult : OvrResult
  setTrackingOriginResult : OvrResult
  ovrTimeRef : ℚ
  qpcFrequency : ℚ
  qpcSample : Nat → ℤ
  ovrTimeSample : Nat → ℚ
  hmdDesc : OvrHmdDesc
  renderDescLeft : OvrEyeRenderDesc
  renderDescRight : OvrEyeRenderDesc
  floorHeight : ℚ
  eyeTrackingMmfOk : Bool

/-- The `OpenXrRuntime` member variables read or written by `system.cpp`.
`ovrSession` is `some ()` iff `m_ovrSession` is non-null;
`ovrTimeFromQpcTimeOffset` is `none` while the field still holds its
`INFINITY` initialisation and `some c` once finite.  `trackingOrigin` is the
backend-side tracking-origin mode last applied through
`ovr_SetTrackingOriginType`. -/
structure RuntimeState where
  instanceCreated : Bool
  systemCreated : Bool
  isOVRLoaded : Bool
  useOculusRuntime : Bool
  sessionIsVDXR : Bool
  ovrSession : Option Unit
  ovrTimeReference : ℚ
  qpcFrequency : ℚ
  ovrTimeFromQpcTimeOffset : Option ℚ
  cachedHmdInfo : OvrHmdDesc
  eyeTrackingType : EyeTracking
  displayRefreshRate : ℚ
  idealFrameDuration : ℚ
  predictedFrameDuration : ℚ
  cachedEyeInfo : StereoPair OvrEyeRenderDesc
  cachedEyeFov : StereoPair XrFovf
  floorHeight : ℚ
  trackingOrigin : Option TrackingOrigin
  hasEyeGazeInteractionExt : Bool
  hasHeadsetIdExt : Bool
deriving DecidableEq, Repr

/-- Calibration round `i` of `ensureOVRSession`:
`ovr_GetTimeInSeconds() - (double)now.QuadPart / m_qpcFrequency.QuadPart`. -/
def roundOffset (env : Env) (i : Nat) : ℚ :=
  env.ovrTimeSample i - (env.qpcSample i : ℚ) / env.qpcFrequency

/-- The calibration loop after `n` rounds:
`m_ovrTimeFromQpcTimeOffset = INFINITY; for i in [0,n): m = min(m, offset_i)`,
with `none` standing for the `INFINITY` start (`min(INFINITY, x) = x`). -/
def calibFold (env : Env) : Nat → Option ℚ
  | 0 => none
  | n + 1 =>
    match calibFold env n with
    | Option.none => some (roundOffset env n)
    | Option.some m => some (min m (roundOffset env n))

/-- `OpenXrRuntime::initializeOVR`: probe the Virtual Desktop server, honour
the `allow_oculus_runtime` setting (default `true`), resolve the LibOVR
override path from the registry when using Virtual Desktop, then run
`ovr_InitializeWithPathOverride` and classify its result. -/
def initializeOVR (env : Env) (s : RuntimeState) :
    Except FatalError (Bool × RuntimeState) :=
  let s₁ := { s with useOculusRuntime := !env.isServiceRunning }
  if s₁.useOculusRuntime && !(env.allowOculusRuntime.getD true) then
    .ok (false, s₁)
  else if !s₁.useOculusRuntime && env.streamerPath.isNone then
    .error .missingRegistryValue
  else
    match env.initResult with
    | .libLoad => .ok (false, s₁)
    | .serviceConnection => .ok (false, s₁)
    | .remoteSession => .ok (false, s₁)
    | .success => .ok (true, { s₁ with isOVRLoaded := true, ovrSession := none })
    | _ => .error .ovrCmdFailed

/-- The recomputation block of `OpenXrRuntime::initializeSystem`, run when the
serial number differs from the cached one: replace `m_cachedHmdInfo`, resolve
the eye-tracking mode, cache refresh rate and frame durations, query the
per-eye render descriptions and derive the field-of-view angles. -/
def recomputeCache (env : Env) (s : RuntimeState) : RuntimeState :=
  { s with
      cachedHmdInfo := env.hmdDesc,
      eyeTrackingType :=
        if !(env.simulateEyeTracking.getD false) then
          (if env.eyeTrackingMmfOk then EyeTracking.mmf else EyeTracking.none)
        else EyeTracking.simulated,
      displayRefreshRate := env.hmdDesc.displayRefreshRate,
      idealFrameDuration := 1 / env.hmdDesc.displayRefreshRate,
      predictedFrameDuration := 1 / env.hmdDesc.displayRefreshRate,
      cachedEyeInfo := ⟨env.renderDescLeft, env.renderDescRight⟩,
      floorHeight := env.floorHeight,
      cachedEyeFov := ⟨xrFovFromOvrFov env.renderDescLeft.fov,
                       xrFovFromOvrFov env.renderDescRight.fov⟩ }

/-- `OpenXrRuntime::initializeSystem`: query `ovr_GetHmdDesc`, recompute the
cache only when the serial number changed, then unconditionally apply
`ovr_SetTrackingOriginType(ovrTrackingOrigin_EyeLevel)` under `CHECK_OVRCMD`. -/
def initializeSystem (env : Env) (s : RuntimeState) :
    Except FatalError RuntimeState :=
  let s₁ :=
    if s.cachedHmdInfo.serialNumber ≠ env.hmdDesc.serialNumber then
      recomputeCache env s
    else s
  match env.setTrackingOriginResult with
  | .success => .ok { s₁ with trackingOrigin := some TrackingOrigin.eyeLevel }
  | _ => .error .ovrCmdFailed

/-- The tail of `OpenXrRuntime::ensureOVRSession` once LibOVR is loaded:
`ovr_Create` (`ovrError_NoHmd` returns `false`, other failures trip
`CHECK_OVRCMD`), the `IsVDXR` session tag for Virtual Desktop sessions
(`if (!m_useOculusRuntime) ovr_SetBool(..., true)` is encoded as the boolean
update `!useOculusRuntime || old`, which sets the flag exactly when the branch
is taken and keeps it otherwise), the time reference, the counter frequency
read, the 100-round clock calibration, and `initializeSystem`. -/
def createSessionAndCalibrate (env : Env) (s₁ : RuntimeState) :
    Except FatalError (Bool × RuntimeState) :=
  match env.createResult with
  | .noHmd => .ok (false, s₁)
  | .success =>
    let s₂ := { s₁ with ovrSession := some () }
    let s₃ := { s₂ with sessionIsVDXR := !s₂.useOculusRuntime || s₂.sessionIsVDXR }
    let s₄ := { s₃ with
                  ovrTimeReference := env.ovrTimeRef,
                  qpcFrequency := env.qpcFrequency,
                  ovrTimeFromQpcTimeOffset := calibFold env 100 }
    (initializeSystem env s₄).map (fun s₅ => (true, s₅))
  | _ => .error .ovrCmdFailed

/-- `OpenXrRuntime::ensureOVRSession`: fast path when a session is live;
otherwise initialize LibOVR if needed, then create the session and
calibrate. -/
def ensureOVRSession (env : Env) (s : RuntimeState) :
    Except FatalError (Bool × RuntimeState) :=
  if s.ovrSession.isSome then .ok (true, s)
  else
    match (if s.isOVRLoaded then .ok (true, s) else initializeOVR env s :
        Except FatalError (Bool × RuntimeState)) with
    | .error e => .error e
    | .ok (false, s₁) => .ok (false, s₁)
    | .ok (true, s₁) => createSessionAndCalibrate env s₁

/-- `XrSystemGetInfo`: structure-kind tag plus requested form factor. -/
structure XrSystemGetInfo where
  type : Nat
  formFactor : Nat
deriving DecidableEq, Repr

/-- `OpenXrRuntime::xrGetSystem`.  Returns the `XrResult`, the value written
to `*systemId` (`none` when nothing is written), and the new state. -/
def xrGetSystem (env : Env) (s : RuntimeState) (inst : Nat)
    (getInfo : XrSystemGetInfo) :
    Except FatalError (XrResult × Option Nat × RuntimeState) :=
  if getInfo.type ≠ XR_TYPE_SYSTEM_GET_INFO then
    .ok (.errorValidationFailure, none, s)
  else if ¬s.instanceCreated ∨ inst ≠ 1 then
    .ok (.errorHandleInvalid, none, s)
  else if getInfo.formFactor ≠ XR_FORM_FACTOR_HEAD_MOUNTED_DISPLAY then
    .ok (.errorFormFactorUnsupported, none, s)
  else
    match ensureOVRSession env s with
    | .error e => .error e
    | .ok (false, s₁) =>
      .ok (.errorFormFactorUnavailable, none, { s₁ with cachedHmdInfo := OvrHmdDesc.empty })
    | .ok (true, s₁) =>
      .ok (.success, some 1, { s₁ with systemCreated := true })

/-- The input to `xrGetSystemProperties`: the structure-kind tag of the descriptor
and the structure-kind tags of the `next` chain, in order. -/
structure SysPropsInput where
  type : Nat
  next : List Nat
deriving DecidableEq, Repr

/-- The 16 hard-coded bytes written into `XrSystemHeadsetIdPropertiesMETA`. -/
def headsetIdUuid : List Nat :=
  [82, 80, 120, 165, 90, 171, 77, 201, 184, 2, 30, 189, 108, 124, 255, 244]

/-- Everything `xrGetSystemProperties` writes into caller memory: a field is
`some v` iff the call wrote `v` there. -/
structure SysPropsResult where
  result : XrResult
  vendorId : Option Nat := none
  systemName : Option String := none
  systemIdOut : Option Nat := none
  positionTracking : Option Bool := none
  orientationTracking : Option Bool := none
  maxLayerCount : Option Nat := none
  maxSwapchainImageWidth : Option Nat := none
  maxSwapchainImageHeight : Option Nat := none
  eyeGazeSupport : Option Bool := none
  headsetId : Option (List Nat) := none
deriving DecidableEq, Repr

/-- The `while` walk over the `next` chain: stop at the first structure whose
kind tag equals `t`; report whether one was found. -/
def scanChain (chain : List Nat) (t : Nat) : Bool :=
  match chain with
  | [] => false
  | x :: rest => if x = t then true else scanChain rest t

/-- `OpenXrRuntime::xrGetSystemProperties`.  `sprintf_s` of the product name
into the 256-byte `systemName` buffer is modelled as the string itself (the
source `ProductName` buffer is 64 bytes, so it always fits). -/
def xrGetSystemProperties (s : RuntimeState) (inst : Nat) (systemId : Nat)
    (props : SysPropsInput) : SysPropsResult :=
  if props.type ≠ XR_TYPE_SYSTEM_PROPERTIES then
    { result := .errorValidationFailure }
  else if ¬s.instanceCreated ∨ inst ≠ 1 then
    { result := .errorHandleInvalid }
  else if ¬s.systemCreated ∨ systemId ≠ 1 then
    { result := .errorSystemInvalid }
  else
    let eyeGazeFound := scanChain props.next XR_TYPE_SYSTEM_EYE_GAZE_INTERACTION_PROPERTIES_EXT
    let headsetIdFound := scanChain props.next XR_TYPE_SYSTEM_HEADSET_ID_PROPERTIES_META
    { result := .success,
      vendorId := some s.cachedHmdInfo.vendorId,
      systemName := some s.cachedHmdInfo.productName,
      systemIdOut := some systemId,
      positionTracking := some true,
      orientationTracking := some true,
      maxLayerCount := some ovrMaxLayerCount,
      maxSwapchainImageWidth := some 16384,
      maxSwapchainImageHeight := some 16384,
      eyeGazeSupport :=
        if s.hasEyeGazeInteractionExt && eyeGazeFound then
          some (decide (s.eyeTrackingType ≠ EyeTracking.none))
        else none,
      headsetId :=
        if s.hasHeadsetIdExt && headsetIdFound then some headsetIdUuid
        else none }

/-- The supported blend modes: `{XR_ENVIRONMENT_BLEND_MODE_OPAQUE}`. -/
def blendModes : List Nat := [XR_ENVIRONMENT_BLEND_MODE_OPAQUE]

/-- What `xrEnumerateEnvironmentBlendModes` writes: the result code, the value
written to `*environmentBlendModeCountOutput` (`none` when not written), and
the items written to the buffer of the caller, in order. -/
structure EnumBlendModesResult where
  result : XrResult
  countOutput : Option Nat := none
  written : List Nat := []
deriving DecidableEq, Repr

/-- `OpenXrRuntime::xrEnumerateEnvironmentBlendModes`.  `bufferProvided` is
whether the `environmentBlendModes` pointer is non-null. -/
def xrEnumerateEnvironmentBlendModes (s : RuntimeState) (inst : Nat)
    (systemId : Nat) (viewConfigurationType : Nat) (capacityInput : Nat)
    (bufferProvided : Bool) : EnumBlendModesResult :=
  if ¬s.instanceCreated ∨ inst ≠ 1 then
    { result := .errorHandleInvalid }
  else if ¬s.systemCreated ∨ systemId ≠ 1 then
    { result := .errorSystemInvalid }
  else if viewConfigurationType ≠ XR_VIEW_CONFIGURATION_TYPE_PRIMARY_STEREO then
    { result := .errorViewConfigurationTypeUnsupported }
  else if capacityInput ≠ 0 ∧ capacityInput < blendModes.length then
    { result := .errorSizeInsufficient }
  else
    { result := .success,
      countOutput := some blendModes.length,
      written := if capacityInput ≠ 0 ∧ bufferProvided then blendModes else [] }

/-! Concrete fixtures used by witnesses and counterexamples. -/

/-- A sample field of view. -/
def fovA : OvrFovPort := ⟨1, 1, 1, 1⟩

/-- A sample pose. -/
def poseA : OvrPosef := ⟨0, 0, 0, 0, 0, 0, 1⟩

/-- A sample eye render description. -/
def rdA : OvrEyeRenderDesc := ⟨fovA, poseA⟩

/-- A sample headset description. -/
def hmdA : OvrHmdDesc :=
  { vendorId := 10291, productId := 1, manufacturer := "Oculus",
    productName := "Quest", serialNumber := "SN-A", firmwareMinor := 0,
    firmwareMajor := 1, resolutionW := 3664, resolutionH := 1920,
    displayRefreshRate := 90, defaultEyeFov := ⟨fovA, fovA⟩ }

/-- An environment where the Virtual Desktop server is running and every
backend call succeeds; all clock samples report a constant offset of 5. -/
def envA : Env :=
  { isServiceRunning := true, allowOculusRuntime := none,
    simulateEyeTracking := none, streamerPath := some "C:/VD",
    initResult := .success, createResult := .success,
    setTrackingOriginResult := .success, ovrTimeRef := 5,
    qpcFrequency := 1000, qpcSample := fun _ => 0,
    ovrTimeSample := fun _ => 5, hmdDesc := hmdA,
    renderDescLeft := rdA, renderDescRight := rdA, floorHeight := 8 / 5,
    eyeTrackingMmfOk := true }

/-- An environment where the Virtual Desktop server is not running and the
`allow_oculus_runtime` setting is absent (not explicitly set). -/
def envNoService : Env := { envA with isServiceRunning := false }

/-- An environment where the server is not running and `allow_oculus_runtime`
is explicitly `false`. -/
def envDisallow : Env :=
  { envA with isServiceRunning := false, allowOculusRuntime := some false }

/-- A fresh runtime state: instance created, nothing else brought up yet. -/
def stateFresh : RuntimeState :=
  { instanceCreated := true, systemCreated := false, isOVRLoaded := false,
    useOculusRuntime := false, sessionIsVDXR := false, ovrSession := none,
    ovrTimeReference := 0, qpcFrequency := 0, ovrTimeFromQpcTimeOffset := none,
    cachedHmdInfo := OvrHmdDesc.empty, eyeTrackingType := EyeTracking.none,
    displayRefreshRate := 0, idealFrameDuration := 0,
    predictedFrameDuration := 0, cachedEyeInfo := ⟨rdA, rdA⟩,
    cachedEyeFov := ⟨xrFovFromOvrFov fovA, xrFovFromOvrFov fovA⟩,
    floorHeight := 0, trackingOrigin := none,
    hasEyeGazeInteractionExt := true, hasHeadsetIdExt := true }

/-- A state with a live session and a created system: exactly the state a
successful `xrGetSystem` bring-up from `stateFresh` against `envA` leaves. -/
def stateLive : RuntimeState :=
  { stateFresh with
      systemCreated := true, isOVRLoaded := true, sessionIsVDXR := true,
      ovrSession := some (), ovrTimeReference := 5, qpcFrequency := 1000,
      ovrTimeFromQpcTimeOffset := calibFold envA 100, cachedHmdInfo := hmdA,
      eyeTrackingType := EyeTracking.mmf, displayRefreshRate := 90,
      idealFrameDuration := 1 / 90, predictedFrameDuration := 1 / 90,
      floorHeight := 8 / 5, trackingOrigin := some TrackingOrigin.eyeLevel }

/-- A well-formed `XrSystemGetInfo` asking for an HMD. -/
def infoHmd : XrSystemGetInfo :=
  ⟨XR_TYPE_SYSTEM_GET_INFO, XR_FORM_FACTOR_HEAD_MOUNTED_DISPLAY⟩

/-- A fresh state with LibOVR already loaded but no session yet. -/
def stateLoaded : RuntimeState := { stateFresh with isOVRLoaded := true }

/-- The `XrResult` of an `xrGetSystem` outcome, or `none` on a fatal throw. -/
def okResult (x : Except FatalError (XrResult × Option Nat × RuntimeState)) :
    Option XrResult :=
  match x with
  | .ok (r, _, _) => some r
  | .error _ => none

/-- The system id written by an `xrGetSystem` outcome, or `none` on a fatal
throw. -/
def okSystemId (x : Except FatalError (XrResult × Option Nat × RuntimeState)) :
    Option (Option Nat) :=
  match x with
  | .ok (_, sid, _) => some sid
  | .error _ => none

/-- Whether a backend session is live in the state left by an `xrGetSystem`
outcome, or `none` on a fatal throw. -/
def okSessionLive (x : Except FatalError (XrResult × Option Nat × RuntimeState)) :
    Option Bool :=
  match x with
  | .ok (_, _, s) => some s.ovrSession.isSome
  | .error _ => none

/-- The chain walk finds a kind tag exactly when it occurs anywhere in the
`next` chain, whatever unrecognized kinds precede it. -/
theorem scanChain_true_iff (chain : List Nat) (t : Nat) :
    scanChain chain t = true ↔ t ∈ chain := by
  induction chain with
  | nil => simp [scanChain]
  | cons x rest ih =>
    by_cases h : x = t
    · subst h; simp [scanChain]
    · simp [scanChain, h, ih, Ne.symm h]

/-- Claim C2: a wrong structure-kind tag on the input descriptor makes
`xrGetSystem` and `xrGetSystemProperties` return the validation-failure error
with the state unchanged and nothing written, for every environment, state and
other argument values (in particular no backend call is consulted). -/
theorem c2_validation_failure_first (env : Env) (s : RuntimeState)
    (inst sysId : Nat) (getInfo : XrSystemGetInfo) (props : SysPropsInput)
    (hg : getInfo.type ≠ XR_TYPE_SYSTEM_GET_INFO)
    (hp : props.type ≠ XR_TYPE_SYSTEM_PROPERTIES) :
    xrGetSystem env s inst getInfo = .ok (.errorValidationFailure, none, s) ∧
    xrGetSystemProperties s inst sysId props = { result := .errorValidationFailure } := by
  constructor
  · simp [xrGetSystem, hg]
  · simp [xrGetSystemProperties, hp]

/-- Witness for C2 at a concrete malformed tag. -/
theorem c2_validation_failure_first_witness :
    ((0 : Nat) ≠ XR_TYPE_SYSTEM_GET_INFO ∧ (0 : Nat) ≠ XR_TYPE_SYSTEM_PROPERTIES) ∧
    (xrGetSystem envA stateFresh 1 ⟨0, 1⟩ = .ok (.errorValidationFailure, none, stateFresh) ∧
     xrGetSystemProperties stateFresh 1 1 ⟨0, []⟩ = { result := .errorValidationFailure }) :=
  ⟨⟨by decide, by decide⟩,
   c2_validation_failure_first envA stateFresh 1 1 ⟨0, 1⟩ ⟨0, []⟩ (by decide) (by decide)⟩

/-- Claim C9: with a well-formed descriptor and valid instance and system
tokens, `xrGetSystemProperties` always succeeds, takes the vendor id and
system name from the cached identity, reports positional and orientational
tracking supported, the backend layer-count constant, and the static 16384
swapchain ceilings. -/
theorem c9_base_properties (s : RuntimeState) (inst sysId : Nat)
    (props : SysPropsInput)
    (ht : props.type = XR_TYPE_SYSTEM_PROPERTIES)
    (hi : s.instanceCreated = true) (hinst : inst = 1)
    (hs : s.systemCreated = true) (hsys : sysId = 1) :
    (xrGetSystemProperties s inst sysId props).result = .success ∧
    (xrGetSystemProperties s inst sysId props).vendorId = some s.cachedHmdInfo.vendorId ∧
    (xrGetSystemProperties s inst sysId props).systemName = some s.cachedHmdInfo.productName ∧
    (xrGetSystemProperties s inst sysId props).positionTracking = some true ∧
    (xrGetSystemProperties s inst sysId props).orientationTracking = some true ∧
    (xrGetSystemProperties s inst sysId props).maxLayerCount = some ovrMaxLayerCount ∧
    (xrGetSystemProperties s inst sysId props).maxSwapchainImageWidth = some 16384 ∧
    (xrGetSystemProperties s inst sysId props).maxSwapchainImageHeight = some 16384 := by
  subst hinst hsys
  simp [xrGetSystemProperties, ht, hi, hs]

/-- Witness for C9 on the live state. -/
theorem c9_base_properties_witness :
    ((XR_TYPE_SYSTEM_PROPERTIES : Nat) = XR_TYPE_SYSTEM_PROPERTIES ∧
      stateLive.instanceCreated = true ∧ stateLive.systemCreated = true) ∧
    ((xrGetSystemProperties stateLive 1 1 ⟨XR_TYPE_SYSTEM_PROPERTIES, []⟩).result = .success ∧
     (xrGetSystemProperties stateLive 1 1 ⟨XR_TYPE_SYSTEM_PROPERTIES, []⟩).vendorId
        = some stateLive.cachedHmdInfo.vendorId ∧
     (xrGetSystemProperties stateLive 1 1 ⟨XR_TYPE_SYSTEM_PROPERTIES, []⟩).systemName
        = some stateLive.cachedHmdInfo.productName ∧
     (xrGetSystemProperties stateLive 1 1 ⟨XR_TYPE_SYSTEM_PROPERTIES, []⟩).positionTracking = some true ∧
     (xrGetSystemProperties stateLive 1 1 ⟨XR_TYPE_SYSTEM_PROPERTIES, []⟩).orientationTracking = some true ∧
     (xrGetSystemProperties stateLive 1 1 ⟨XR_TYPE_SYSTEM_PROPERTIES, []⟩).maxLayerCount
        = some ovrMaxLayerCount ∧
     (xrGetSystemProperties stateLive 1 1 ⟨XR_TYPE_SYSTEM_PROPERTIES, []⟩).maxSwapchainImageWidth
        = some 16384 ∧
     (xrGetSystemProperties stateLive 1 1 ⟨XR_TYPE_SYSTEM_PROPERTIES, []⟩).maxSwapchainImageHeight
        = some 16384) :=
  ⟨⟨rfl, by decide, by decide⟩,
   c9_base_properties stateLive 1 1 ⟨XR_TYPE_SYSTEM_PROPERTIES, []⟩ rfl (by decide) rfl (by decide) rfl⟩

/-- Claim C8: the output-chain scan of `xrGetSystemProperties` does not
short-circuit on unrecognized kinds: with the extensions enabled, an eye-gaze
or headset-identifier structure occurring anywhere in the chain is populated
(the eye-gaze flag from the eye-tracking mode, the identifier with the fixed
bytes), and unrecognized kinds are skipped, the call still succeeding. -/
theorem c8_chain_scan (s : RuntimeState) (props : SysPropsInput)
    (ht : props.type = XR_TYPE_SYSTEM_PROPERTIES)
    (hi : s.instanceCreated = true) (hs : s.systemCreated = true)
    (hge : s.hasEyeGazeInteractionExt = true) (hhid : s.hasHeadsetIdExt = true) :
    (xrGetSystemProperties s 1 1 props).result = .success ∧
    (XR_TYPE_SYSTEM_EYE_GAZE_INTERACTION_PROPERTIES_EXT ∈ props.next →
      (xrGetSystemProperties s 1 1 props).eyeGazeSupport
        = some (decide (s.eyeTrackingType ≠ EyeTracking.none))) ∧
    (XR_TYPE_SYSTEM_HEADSET_ID_PROPERTIES_META ∈ props.next →
      (xrGetSystemProperties s 1 1 props).headsetId = some headsetIdUuid) := by
  refine ⟨?_, ?_, ?_⟩
  · simp [xrGetSystemProperties, ht, hi, hs]
  · intro hmem
    have hscan : scanChain props.next XR_TYPE_SYSTEM_EYE_GAZE_INTERACTION_PROPERTIES_EXT = true :=
      (scanChain_true_iff _ _).mpr hmem
    simp [xrGetSystemProperties, ht, hi, hs, hge, hscan]
  · intro hmem
    have hscan : scanChain props.next XR_TYPE_SYSTEM_HEADSET_ID_PROPERTIES_META = true :=
      (scanChain_true_iff _ _).mpr hmem
    simp [xrGetSystemProperties, ht, hi, hs, hhid, hscan]

/-- Witness for C8: both recognized structures sit after unrecognized kinds in
the chain and are still populated. -/
theorem c8_chain_scan_witness :
    ((XR_TYPE_SYSTEM_PROPERTIES : Nat) = XR_TYPE_SYSTEM_PROPERTIES ∧
      stateLive.instanceCreated = true ∧ stateLive.systemCreated = true ∧
      stateLive.hasEyeGazeInteractionExt = true ∧ stateLive.hasHeadsetIdExt = true) ∧
    ((xrGetSystemProperties stateLive 1 1
        ⟨XR_TYPE_SYSTEM_PROPERTIES,
         [999, XR_TYPE_SYSTEM_EYE_GAZE_INTERACTION_PROPERTIES_EXT, 888,
          XR_TYPE_SYSTEM_HEADSET_ID_PROPERTIES_META]⟩).result = .success ∧
     (XR_TYPE_SYSTEM_EYE_GAZE_INTERACTION_PROPERTIES_EXT ∈
        ([999, XR_TYPE_SYSTEM_EYE_GAZE_INTERACTION_PROPERTIES_EXT, 888,
          XR_TYPE_SYSTEM_HEADSET_ID_PROPERTIES_META] : List Nat) →
      (xrGetSystemProperties stateLive 1 1
        ⟨XR_TYPE_SYSTEM_PROPERTIES,
         [999, XR_TYPE_SYSTEM_EYE_GAZE_INTERACTION_PROPERTIES_EXT, 888,
          XR_TYPE_SYSTEM_HEADSET_ID_PROPERTIES_META]⟩).eyeGazeSupport
        = some (decide (stateLive.eyeTrackingType ≠ EyeTracking.none))) ∧
     (XR_TYPE_SYSTEM_HEADSET_ID_PROPERTIES_META ∈
        ([999, XR_TYPE_SYSTEM_EYE_GAZE_INTERACTION_PROPERTIES_EXT, 888,
          XR_TYPE_SYSTEM_HEADSET_ID_PROPERTIES_META] : List Nat) →
      (xrGetSystemProperties stateLive 1 1
        ⟨XR_TYPE_SYSTEM_PROPERTIES,
         [999, XR_TYPE_SYSTEM_EYE_GAZE_INTERACTION_PROPERTIES_EXT, 888,
          XR_TYPE_SYSTEM_HEADSET_ID_PROPERTIES_META]⟩).headsetId = some headsetIdUuid)) :=
  ⟨⟨rfl, by decide, by decide, by decide, by decide⟩,
   c8_chain_scan stateLive
     ⟨XR_TYPE_SYSTEM_PROPERTIES,
      [999, XR_TYPE_SYSTEM_EYE_GAZE_INTERACTION_PROPERTIES_EXT, 888,
       XR_TYPE_SYSTEM_HEADSET_ID_PROPERTIES_META]⟩
     rfl (by decide) (by decide) (by decide) (by decide)⟩

/-- Claim C7: the two-call enumeration contract of
`xrEnumerateEnvironmentBlendModes` for the sequence {Opaque}: with valid
handles and the stereo configuration, capacity 0 reports count 1 and writes no
item; a non-zero capacity below the count (none exists here) would report the
size-insufficient error writing nothing; a sufficient capacity with a buffer
writes exactly {Opaque} and reports count 1; any other view configuration is
rejected as unsupported. -/
theorem c7_enum_two_call (s : RuntimeState) (cap cfg : Nat) (buf : Bool)
    (hi : s.instanceCreated = true) (hs : s.systemCreated = true) :
    (xrEnumerateEnvironmentBlendModes s 1 1 XR_VIEW_CONFIGURATION_TYPE_PRIMARY_STEREO 0 buf
       = { result := .success, countOutput := some 1, written := [] }) ∧
    (cap ≠ 0 → cap < blendModes.length →
       xrEnumerateEnvironmentBlendModes s 1 1 XR_VIEW_CONFIGURATION_TYPE_PRIMARY_STEREO cap buf
         = { result := .errorSizeInsufficient }) ∧
    (blendModes.length ≤ cap →
       xrEnumerateEnvironmentBlendModes s 1 1 XR_VIEW_CONFIGURATION_TYPE_PRIMARY_STEREO cap true
         = { result := .success, countOutput := some 1,
             written := [XR_ENVIRONMENT_BLEND_MODE_OPAQUE] }) ∧
    (cfg ≠ XR_VIEW_CONFIGURATION_TYPE_PRIMARY_STEREO →
       xrEnumerateEnvironmentBlendModes s 1 1 cfg cap buf
         = { result := .errorViewConfigurationTypeUnsupported }) := by
  refine ⟨?_, ?_, ?_, ?_⟩
  · simp [xrEnumerateEnvironmentBlendModes, hi, hs, blendModes]
  · intro hne hlt
    simp [blendModes] at hlt
    omega
  · intro hge
    have hne : cap ≠ 0 := by
      simp [blendModes] at hge; omega
    simp [xrEnumerateEnvironmentBlendModes, hi, hs, blendModes, hne]
  · intro hcfg
    simp [xrEnumerateEnvironmentBlendModes, hi, hs, hcfg]

/-- Witness for C7 at capacity 3 and an unsupported mono configuration. -/
theorem c7_enum_two_call_witness :
    (stateLive.instanceCreated = true ∧ stateLive.systemCreated = true) ∧
    ((xrEnumerateEnvironmentBlendModes stateLive 1 1 XR_VIEW_CONFIGURATION_TYPE_PRIMARY_STEREO 0 true
        = { result := .success, countOutput := some 1, written := [] }) ∧
     (3 ≠ 0 → 3 < blendModes.length →
        xrEnumerateEnvironmentBlendModes stateLive 1 1 XR_VIEW_CONFIGURATION_TYPE_PRIMARY_STEREO 3 true
          = { result := .errorSizeInsufficient }) ∧
     (blendModes.length ≤ 3 →
        xrEnumerateEnvironmentBlendModes stateLive 1 1 XR_VIEW_CONFIGURATION_TYPE_PRIMARY_STEREO 3 true
          = { result := .success, countOutput := some 1,
              written := [XR_ENVIRONMENT_BLEND_MODE_OPAQUE] }) ∧
     ((1 : Nat) ≠ XR_VIEW_CONFIGURATION_TYPE_PRIMARY_STEREO →
        xrEnumerateEnvironmentBlendModes stateLive 1 1 1 3 true
          = { result := .errorViewConfigurationTypeUnsupported })) :=
  ⟨⟨by decide, by decide⟩,
   c7_enum_two_call stateLive 3 1 true (by decide) (by decide)⟩

/-- Claim C10: with valid handles, the stereo configuration and a sufficient
capacity but a null buffer pointer, `xrEnumerateEnvironmentBlendModes` still
succeeds, reports count 1 and writes no items. -/
theorem c10_null_buffer_tolerated (s : RuntimeState) (cap : Nat)
    (hi : s.instanceCreated = true) (hs : s.systemCreated = true)
    (hcap : 1 ≤ cap) :
    xrEnumerateEnvironmentBlendModes s 1 1 XR_VIEW_CONFIGURATION_TYPE_PRIMARY_STEREO cap false
      = { result := .success, countOutput := some 1, written := [] } := by
  have hne : cap ≠ 0 := by omega
  simp [xrEnumerateEnvironmentBlendModes, hi, hs, blendModes, hne]

/-- Witness for C10 at capacity 4. -/
theorem c10_null_buffer_tolerated_witness :
    (stateLive.instanceCreated = true ∧ stateLive.systemCreated = true ∧ 1 ≤ 4) ∧
    xrEnumerateEnvironmentBlendModes stateLive 1 1 XR_VIEW_CONFIGURATION_TYPE_PRIMARY_STEREO 4 false
      = { result := .success, countOutput := some 1, written := [] } :=
  ⟨⟨by decide, by decide, by decide⟩,
   c10_null_buffer_tolerated stateLive 4 (by decide) (by decide) (by decide)⟩

/-- Mapping over an `Except` yields `ok` exactly when the original did. -/
theorem except_map_ok {ε α β : Type} (f : α → β) (x : Except ε α) (b : β)
    (h : x.map f = .ok b) : ∃ a, x = .ok a ∧ f a = b := by
  cases x with
  | error e => simp [Except.map] at h
  | ok a => exact ⟨a, rfl, by simpa [Except.map] using h⟩

/-- Inversion for `initializeOVR`: a `false` return leaves the state unchanged
apart from the backend-choice flag; a `true` return additionally records that
LibOVR is loaded and nulls the session handle. -/
theorem initializeOVR_ok_inv (env : Env) (s : RuntimeState) (b : Bool)
    (s₁ : RuntimeState) (h : initializeOVR env s = .ok (b, s₁)) :
    (b = false → s₁ = { s with useOculusRuntime := !env.isServiceRunning }) ∧
    (b = true → s₁ = { s with useOculusRuntime := !env.isServiceRunning,
                              isOVRLoaded := true, ovrSession := none }) := by
  cases hsr : env.isServiceRunning <;>
    cases hallow : env.allowOculusRuntime.getD true <;>
    cases hpath : env.streamerPath.isNone <;>
    cases hres : env.initResult <;>
    simp [initializeOVR, hsr, hallow, hpath, hres] at h <;>
    constructor <;> intro hb <;> simp_all

/-- Frame facts for `initializeSystem`: whichever way the serial-number test
goes, an `ok` return preserves the session handle, the handle-lifecycle flags
and the clock-calibration fields. -/
theorem initializeSystem_ok_inv (env : Env) (t t' : RuntimeState)
    (h : initializeSystem env t = .ok t') :
    t'.ovrSession = t.ovrSession ∧ t'.instanceCreated = t.instanceCreated ∧
    t'.systemCreated = t.systemCreated ∧
    t'.ovrTimeFromQpcTimeOffset = t.ovrTimeFromQpcTimeOffset ∧
    t'.qpcFrequency = t.qpcFrequency ∧
    t'.ovrTimeReference = t.ovrTimeReference := by
  by_cases hser : t.cachedHmdInfo.serialNumber = env.hmdDesc.serialNumber <;>
    cases ho : env.setTrackingOriginResult <;>
    simp [initializeSystem, hser, ho, recomputeCache] at h <;>
    subst h <;> simp [recomputeCache]

/-- `initializeSystem` returns `ok` whenever setting the tracking origin
succeeds. -/
theorem initializeSystem_ok_exists (env : Env) (t : RuntimeState)
    (ho : env.setTrackingOriginResult = .success) :
    ∃ t', initializeSystem env t = .ok t' := by
  by_cases hser : t.cachedHmdInfo.serialNumber = env.hmdDesc.serialNumber
  · exact ⟨{ t with trackingOrigin := some TrackingOrigin.eyeLevel },
      by simp [initializeSystem, hser, ho]⟩
  · exact ⟨{ recomputeCache env t with trackingOrigin := some TrackingOrigin.eyeLevel },
      by simp [initializeSystem, hser, ho]⟩

/-- Inversion for the create-and-calibrate stage: a `true` return leaves a
live session whose calibration scalar is the 100-round fold; a `false` return
(`ovrError_NoHmd`) changes nothing. -/
theorem createSessionAndCalibrate_ok_inv (env : Env) (t : RuntimeState)
    (b : Bool) (t' : RuntimeState)
    (h : createSessionAndCalibrate env t = .ok (b, t')) :
    t'.instanceCreated = t.instanceCreated ∧
    t'.systemCreated = t.systemCreated ∧
    (b = true → t'.ovrSession = some () ∧
      t'.ovrTimeFromQpcTimeOffset = calibFold env 100) ∧
    (b = false → t' = t) := by
  cases hc : env.createResult <;> simp [createSessionAndCalibrate, hc] at h
  case noHmd =>
    obtain ⟨hb, ht⟩ := h
    subst hb
    subst ht
    refine ⟨rfl, rfl, ?_, ?_⟩
    · intro hb2
      exact absurd hb2 (by decide)
    · intro _
      rfl
  case success =>
    obtain ⟨a, hX, hf⟩ := except_map_ok _ _ _ h
    have hb : b = true := by
      have := congrArg Prod.fst hf
      simpa using this.symm
    have ht : t' = a := by
      have := congrArg Prod.snd hf
      simpa using this.symm
    subst hb
    subst ht
    obtain ⟨h1, h2, h3, h4, h5, h6⟩ := initializeSystem_ok_inv env _ _ hX
    refine ⟨h2, h3, ?_, ?_⟩
    · intro _
      exact ⟨by rw [h1], by rw [h4]⟩
    · intro hf2
      exact absurd hf2 (by decide)

/-- With no live session and LibOVR already loaded, `ensureOVRSession` is the
create-and-calibrate stage. -/
theorem ensureOVRSession_loaded (env : Env) (s : RuntimeState)
    (hsess : s.ovrSession = none) (hload : s.isOVRLoaded = true) :
    ensureOVRSession env s = createSessionAndCalibrate env s := by
  simp [ensureOVRSession, hsess, hload]

/-- Full inversion for `ensureOVRSession`: an ordinary return preserves the
lifecycle flags; a `true` return leaves a live session; a `false` return
leaves no session, starts from a state with no session, and does not touch
the calibration fields or the identity cache. -/
theorem ensureOVRSession_ok_inv (env : Env) (s : RuntimeState) (b : Bool)
    (s₁ : RuntimeState) (h : ensureOVRSession env s = .ok (b, s₁)) :
    s₁.instanceCreated = s.instanceCreated ∧
    (b = true → s₁.ovrSession = some ()) ∧
    (b = false → s₁.ovrSession = none ∧ s.ovrSession = none ∧
      s₁.ovrTimeFromQpcTimeOffset = s.ovrTimeFromQpcTimeOffset ∧
      s₁.qpcFrequency = s.qpcFrequency ∧
      s₁.ovrTimeReference = s.ovrTimeReference ∧
      s₁.cachedHmdInfo = s.cachedHmdInfo ∧
      s₁.eyeTrackingType = s.eyeTrackingType ∧
      s₁.cachedEyeInfo = s.cachedEyeInfo ∧
      s₁.cachedEyeFov = s.cachedEyeFov) := by
  unfold ensureOVRSession at h
  by_cases hfast : s.ovrSession.isSome
  · rw [if_pos hfast] at h
    simp only [Except.ok.injEq, Prod.mk.injEq] at h
    obtain ⟨hb, hs⟩ := h
    subst hb
    subst hs
    refine ⟨rfl, ?_, ?_⟩
    · intro _
      obtain ⟨u, hu⟩ := Option.isSome_iff_exists.mp hfast
      cases u
      exact hu
    · intro hfalse
      exact absurd hfalse (by decide)
  · rw [if_neg hfast] at h
    have hnone : s.ovrSession = none := Option.not_isSome_iff_eq_none.mp hfast
    by_cases hload : s.isOVRLoaded
    · rw [if_pos hload] at h
      simp only [] at h
      -- h : createSessionAndCalibrate env s = .ok (b, s₁)
      obtain ⟨h1, h2, h3, h4⟩ := createSessionAndCalibrate_ok_inv env s b s₁ h
      refine ⟨h1, fun hb => (h3 hb).1, fun hb => ?_⟩
      rw [h4 hb]
      exact ⟨hnone, hnone, rfl, rfl, rfl, rfl, rfl, rfl, rfl⟩
    · rw [if_neg hload] at h
      cases hI : initializeOVR env s with
      | error e =>
        rw [hI] at h
        exact absurd h (by simp)
      | ok p =>
        obtain ⟨bI, sI⟩ := p
        rw [hI] at h
        obtain ⟨hIf, hIt⟩ := initializeOVR_ok_inv env s bI sI hI
        cases bI with
        | false =>
          simp only [Except.ok.injEq, Prod.mk.injEq] at h
          obtain ⟨hb, hs⟩ := h
          subst hb
          subst hs
          rw [hIf rfl]
          refine ⟨rfl, ?_, ?_⟩
          · intro htrue
            exact absurd htrue (by decide)
          · intro _
            exact ⟨hnone, hnone, rfl, rfl, rfl, rfl, rfl, rfl, rfl⟩
        | true =>
          simp only [] at h
          obtain ⟨h1, h2, h3, h4⟩ := createSessionAndCalibrate_ok_inv env sI b s₁ h
          rw [hIt rfl] at h1 h4
          refine ⟨h1, fun hb => (h3 hb).1, fun hb => ?_⟩
          rw [h4 hb]
          exact ⟨rfl, hnone, rfl, rfl, rfl, rfl, rfl, rfl, rfl⟩

/-- After at least one calibration round the accumulator is finite. -/
theorem calibFold_succ_isSome (env : Env) (n : Nat) :
    (calibFold env (n + 1)).isSome := by
  cases h : calibFold env n <;> simp [calibFold, h]

/-- The calibration accumulator is infinite only before the first round. -/
theorem calibFold_eq_none (env : Env) (n : Nat) (h : calibFold env n = none) :
    n = 0 := by
  cases n with
  | zero => rfl
  | succ k =>
    have hs := calibFold_succ_isSome env k
    rw [h] at hs
    exact absurd hs (by decide)

/-- The calibration accumulator is a lower bound of every round offset seen
so far. -/
theorem calibFold_le (env : Env) :
    ∀ n m, calibFold env n = some m → ∀ i, i < n → m ≤ roundOffset env i := by
  intro n
  induction n with
  | zero =>
    intro m hm i hi
    exact absurd hi (Nat.not_lt_zero i)
  | succ k ih =>
    intro m hm i hi
    cases hk : calibFold env k with
    | none =>
      simp [calibFold, hk] at hm
      have hk0 : k = 0 := calibFold_eq_none env k hk
      subst hk0
      have hi0 : i = 0 := by omega
      subst hi0
      exact le_of_eq hm.symm
    | some mk =>
      simp [calibFold, hk] at hm
      subst hm
      rcases Nat.lt_succ_iff_lt_or_eq.mp hi with hlt | heq
      · exact le_trans (min_le_left _ _) (ih mk hk i hlt)
      · subst heq
        exact min_le_right _ _

/-- The calibration accumulator is attained at one of the rounds seen so
far. -/
theorem calibFold_attained (env : Env) :
    ∀ n m, calibFold env n = some m → ∃ j, j < n ∧ m = roundOffset env j := by
  intro n
  induction n with
  | zero =>
    intro m hm
    simp [calibFold] at hm
  | succ k ih =>
    intro m hm
    cases hk : calibFold env k with
    | none =>
      simp [calibFold, hk] at hm
      exact ⟨k, Nat.lt_succ_self k, hm.symm⟩
    | some mk =>
      simp [calibFold, hk] at hm
      rcases min_cases mk (roundOffset env k) with ⟨hmin, _⟩ | ⟨hmin, _⟩
      · obtain ⟨j, hj, hjm⟩ := ih mk hk
        refine ⟨j, Nat.lt_succ_of_lt hj, ?_⟩
        rw [← hm, hmin, hjm]
      · refine ⟨k, Nat.lt_succ_self k, ?_⟩
        rw [← hm, hmin]

/-- Claim C1: the bring-up clock calibration samples 100 rounds of
backend-clock minus frequency-normalized host-counter offsets and stores the
minimum across the rounds: the stored scalar is a lower bound of every
per-round offset and is attained at one of them. -/
theorem c1_calibration_minimum (env : Env) (s : RuntimeState)
    (hsess : s.ovrSession = none) (hload : s.isOVRLoaded = true)
    (hcreate : env.createResult = .success)
    (horigin : env.setTrackingOriginResult = .success) :
    ∃ s' m, ensureOVRSession env s = .ok (true, s') ∧
      s'.ovrTimeFromQpcTimeOffset = some m ∧
      (∀ i, i < 100 → m ≤ roundOffset env i) ∧
      (∃ j, j < 100 ∧ m = roundOffset env j) := by
  rw [ensureOVRSession_loaded env s hsess hload]
  simp only [createSessionAndCalibrate, hcreate]
  obtain ⟨t', hI⟩ := initializeSystem_ok_exists env _ horigin
  rw [hI]
  obtain ⟨hsess', hinst', hsys', hoff, hfreq, href⟩ :=
    initializeSystem_ok_inv env _ t' hI
  have hoff' : t'.ovrTimeFromQpcTimeOffset = calibFold env 100 := hoff
  obtain ⟨m, hm⟩ := Option.isSome_iff_exists.mp (calibFold_succ_isSome env 99)
  refine ⟨t', m, ?_, ?_, ?_, ?_⟩
  · simp [Except.map]
  · rw [hoff']
    exact hm
  · intro i hi
    exact calibFold_le env 100 m hm i hi
  · exact calibFold_attained env 100 m hm

/-- Witness for C1 on a loaded fresh state against `envA`. -/
theorem c1_calibration_minimum_witness :
    (stateLoaded.ovrSession = none ∧ stateLoaded.isOVRLoaded = true ∧
     envA.createResult = .success ∧ envA.setTrackingOriginResult = .success) ∧
    (∃ s' m, ensureOVRSession envA stateLoaded = .ok (true, s') ∧
      s'.ovrTimeFromQpcTimeOffset = some m ∧
      (∀ i, i < 100 → m ≤ roundOffset envA i) ∧
      (∃ j, j < 100 ∧ m = roundOffset envA j)) :=
  ⟨⟨rfl, rfl, rfl, rfl⟩, c1_calibration_minimum envA stateLoaded rfl rfl rfl rfl⟩

/-- Claim C6: `initializeSystem` recomputes the cached identity and all
derived fields exactly when the freshly queried serial number differs from
the cached one — an unchanged serial leaves every cached field bit-identical —
while the backend tracking-origin mode is set to eye-level unconditionally in
both cases. -/
theorem c6_cache_recompute_iff_serial (env : Env) (s : RuntimeState)
    (ho : env.setTrackingOriginResult = .success) :
    (s.cachedHmdInfo.serialNumber = env.hmdDesc.serialNumber →
       initializeSystem env s
         = .ok { s with trackingOrigin := some TrackingOrigin.eyeLevel }) ∧
    (s.cachedHmdInfo.serialNumber ≠ env.hmdDesc.serialNumber →
       initializeSystem env s
         = .ok { recomputeCache env s with
                   trackingOrigin := some TrackingOrigin.eyeLevel }) := by
  constructor
  · intro hser
    simp [initializeSystem, hser, ho]
  · intro hser
    simp [initializeSystem, hser, ho]

/-- Witness for C6: one bring-up with the cached serial (all cached fields
kept) and one with a fresh serial (cache recomputed). -/
theorem c6_cache_recompute_iff_serial_witness :
    (envA.setTrackingOriginResult = .success) ∧
    ((stateLive.cachedHmdInfo.serialNumber = envA.hmdDesc.serialNumber →
        initializeSystem envA stateLive
          = .ok { stateLive with trackingOrigin := some TrackingOrigin.eyeLevel }) ∧
     (stateLive.cachedHmdInfo.serialNumber ≠ envA.hmdDesc.serialNumber →
        initializeSystem envA stateLive
          = .ok { recomputeCache envA stateLive with
                    trackingOrigin := some TrackingOrigin.eyeLevel })) ∧
    ((stateFresh.cachedHmdInfo.serialNumber = envA.hmdDesc.serialNumber →
        initializeSystem envA stateFresh
          = .ok { stateFresh with trackingOrigin := some TrackingOrigin.eyeLevel }) ∧
     (stateFresh.cachedHmdInfo.serialNumber ≠ envA.hmdDesc.serialNumber →
        initializeSystem envA stateFresh
          = .ok { recomputeCache envA stateFresh with
                    trackingOrigin := some TrackingOrigin.eyeLevel })) :=
  ⟨rfl, c6_cache_recompute_iff_serial envA stateLive rfl,
        c6_cache_recompute_iff_serial envA stateFresh rfl⟩

/-- Claim C5: once a successful `xrGetSystem` has left a live session, the
next `xrGetSystem` with the same arguments succeeds on the fast path with the
same system id and leaves the state (in particular the calibration scalar)
untouched, whatever the second environment does — no backend call is rerun. -/
theorem c5_acquire_idempotent (env env₂ : Env) (s s₁ : RuntimeState)
    (inst : Nat) (getInfo : XrSystemGetInfo) (sid : Option Nat)
    (h : xrGetSystem env s inst getInfo = .ok (.success, sid, s₁)) :
    sid = some 1 ∧
    xrGetSystem env₂ s₁ inst getInfo = .ok (.success, some 1, s₁) := by
  unfold xrGetSystem at h
  by_cases h1 : getInfo.type ≠ XR_TYPE_SYSTEM_GET_INFO
  · rw [if_pos h1] at h
    simp at h
  · rw [if_neg h1] at h
    by_cases h2 : ¬s.instanceCreated ∨ inst ≠ 1
    · rw [if_pos h2] at h
      simp at h
    · rw [if_neg h2] at h
      by_cases h3 : getInfo.formFactor ≠ XR_FORM_FACTOR_HEAD_MOUNTED_DISPLAY
      · rw [if_pos h3] at h
        simp at h
      · rw [if_neg h3] at h
        push_neg at h2
        obtain ⟨hic, hinst1⟩ := h2
        have ht : getInfo.type = XR_TYPE_SYSTEM_GET_INFO := not_ne_iff.mp h1
        have hff : getInfo.formFactor = XR_FORM_FACTOR_HEAD_MOUNTED_DISPLAY :=
          not_ne_iff.mp h3
        cases he : ensureOVRSession env s with
        | error e =>
          rw [he] at h
          exact absurd h (by simp)
        | ok p =>
          obtain ⟨b, t⟩ := p
          rw [he] at h
          cases b with
          | false => simp at h
          | true =>
            simp only [Except.ok.injEq, Prod.mk.injEq] at h
            obtain ⟨-, hsid, hs₁⟩ := h
            obtain ⟨hinstEq, hsessTrue, -⟩ :=
              ensureOVRSession_ok_inv env s true t he
            subst hs₁
            refine ⟨hsid.symm, ?_⟩
            have hts : t.ovrSession = some () := hsessTrue rfl
            simp [xrGetSystem, ensureOVRSession, hts, ht, hff, hinstEq,
                  hic, hinst1]

/-- Witness for C5: a fresh bring-up against `envA` lands in `stateLive`, and
a second call under a different environment (server stopped) returns the same
id and state. -/
theorem c5_acquire_idempotent_witness :
    (xrGetSystem envA stateFresh 1 infoHmd = .ok (.success, some 1, stateLive)) ∧
    (some 1 = some 1 ∧
     xrGetSystem envNoService stateLive 1 infoHmd
       = .ok (.success, some 1, stateLive)) :=
  ⟨by rfl,
   c5_acquire_idempotent envA envNoService stateFresh stateLive 1 infoHmd
     (some 1) (by rfl)⟩

/-- Claim C4: whenever `xrGetSystem` reports the form-factor-unavailable
failure, the cached device identity has been reset to the empty value, no
backend session is referenced, no system id was written, and the
clock-calibration fields are exactly those of the pre-call state. -/
theorem c4_failure_resets (env : Env) (s s' : RuntimeState) (inst : Nat)
    (getInfo : XrSystemGetInfo) (sid : Option Nat)
    (h : xrGetSystem env s inst getInfo
          = .ok (.errorFormFactorUnavailable, sid, s')) :
    s'.cachedHmdInfo = OvrHmdDesc.empty ∧ s'.ovrSession = none ∧ sid = none ∧
    s'.ovrTimeFromQpcTimeOffset = s.ovrTimeFromQpcTimeOffset ∧
    s'.qpcFrequency = s.qpcFrequency ∧
    s'.ovrTimeReference = s.ovrTimeReference := by
  unfold xrGetSystem at h
  by_cases h1 : getInfo.type ≠ XR_TYPE_SYSTEM_GET_INFO
  · rw [if_pos h1] at h
    simp at h
  · rw [if_neg h1] at h
    by_cases h2 : ¬s.instanceCreated ∨ inst ≠ 1
    · rw [if_pos h2] at h
      simp at h
    · rw [if_neg h2] at h
      by_cases h3 : getInfo.formFactor ≠ XR_FORM_FACTOR_HEAD_MOUNTED_DISPLAY
      · rw [if_pos h3] at h
        simp at h
      · rw [if_neg h3] at h
        cases he : ensureOVRSession env s with
        | error e =>
          rw [he] at h
          exact absurd h (by simp)
        | ok p =>
          obtain ⟨b, t⟩ := p
          rw [he] at h
          cases b with
          | true => simp at h
          | false =>
            simp only [Except.ok.injEq, Prod.mk.injEq] at h
            obtain ⟨-, hsid, hs'⟩ := h
            obtain ⟨-, -, hfalse⟩ := ensureOVRSession_ok_inv env s false t he
            obtain ⟨htses, -, htoff, htfreq, href, -⟩ := hfalse rfl
            subst hs'
            exact ⟨rfl, htses, hsid.symm, htoff, htfreq, href⟩

/-- Witness for C4: a bring-up with the server stopped and fallback explicitly
disallowed fails with form-factor-unavailable leaving the identity reset and
no session. -/
theorem c4_failure_resets_witness :
    (xrGetSystem envDisallow stateFresh 1 infoHmd
       = .ok (.errorFormFactorUnavailable, none,
              { stateFresh with useOculusRuntime := true })) ∧
    (({ stateFresh with useOculusRuntime := true } : RuntimeState).cachedHmdInfo
        = OvrHmdDesc.empty ∧
     ({ stateFresh with useOculusRuntime := true } : RuntimeState).ovrSession = none ∧
     (none : Option Nat) = none ∧
     ({ stateFresh with useOculusRuntime := true } : RuntimeState).ovrTimeFromQpcTimeOffset
        = stateFresh.ovrTimeFromQpcTimeOffset ∧
     ({ stateFresh with useOculusRuntime := true } : RuntimeState).qpcFrequency
        = stateFresh.qpcFrequency ∧
     ({ stateFresh with useOculusRuntime := true } : RuntimeState).ovrTimeReference
        = stateFresh.ovrTimeReference) :=
  ⟨by rfl,
   c4_failure_resets envDisallow stateFresh
     { stateFresh with useOculusRuntime := true } 1 infoHmd none (by rfl)⟩

/-- Claim C3 counterexample: the presence probe reports the service is not
running and the configuration does not explicitly allow falling back (the
fallback-permission setting is absent), yet `xrGetSystem` succeeds and creates
a backend session instead of returning the form-factor-unavailable outcome,
because the setting defaults to allowing the fallback. -/
theorem c3_counterexample :
    envNoService.isServiceRunning = false ∧
    envNoService.allowOculusRuntime = none ∧
    okResult (xrGetSystem envNoService stateFresh 1 infoHmd)
      = some XrResult.success ∧
    okSystemId (xrGetSystem envNoService stateFresh 1 infoHmd) = some (some 1) ∧
    okSessionLive (xrGetSystem envNoService stateFresh 1 infoHmd) = some true :=
  ⟨rfl, rfl, by rfl, by rfl, by rfl⟩

/-- Claim C3 as amended: if the presence probe reports the service is not
running and the configuration EXPLICITLY disallows falling back (the
`allow_oculus_runtime` setting is present with value `false`), a fresh
`xrGetSystem` returns the form-factor-unavailable outcome and no backend
session is created. -/
theorem c3_explicit_disallow_unavailable (env : Env) (s : RuntimeState)
    (inst : Nat) (getInfo : XrSystemGetInfo)
    (ht : getInfo.type = XR_TYPE_SYSTEM_GET_INFO)
    (hf : getInfo.formFactor = XR_FORM_FACTOR_HEAD_MOUNTED_DISPLAY)
    (hi : s.instanceCreated = true) (hinst : inst = 1)
    (hsess : s.ovrSession = none) (hload : s.isOVRLoaded = false)
    (hrun : env.isServiceRunning = false)
    (hallow : env.allowOculusRuntime = some false) :
    xrGetSystem env s inst getInfo
      = .ok (.errorFormFactorUnavailable, none,
             { s with useOculusRuntime := true,
                      cachedHmdInfo := OvrHmdDesc.empty }) ∧
    ({ s with useOculusRuntime := true,
              cachedHmdInfo := OvrHmdDesc.empty } : RuntimeState).ovrSession
      = none := by
  subst hinst
  constructor
  · simp [xrGetSystem, ht, hf, hi, ensureOVRSession, hsess, hload,
          initializeOVR, hrun, hallow]
  · exact hsess

/-- Witness for the amended C3 on `envDisallow`. -/
theorem c3_explicit_disallow_unavailable_witness :
    (infoHmd.type = XR_TYPE_SYSTEM_GET_INFO ∧
     infoHmd.formFactor = XR_FORM_FACTOR_HEAD_MOUNTED_DISPLAY ∧
     stateFresh.instanceCreated = true ∧ stateFresh.ovrSession = none ∧
     stateFresh.isOVRLoaded = false ∧
     envDisallow.isServiceRunning = false ∧
     envDisallow.allowOculusRuntime = some false) ∧
    (xrGetSystem envDisallow stateFresh 1 infoHmd
       = .ok (.errorFormFactorUnavailable, none,
              { stateFresh with useOculusRuntime := true,
                                cachedHmdInfo := OvrHmdDesc.empty }) ∧
     ({ stateFresh with useOculusRuntime := true,
                        cachedHmdInfo := OvrHmdDesc.empty } : RuntimeState).ovrSession
       = none) :=
  ⟨⟨rfl, rfl, rfl, rfl, rfl, rfl, rfl⟩,
   c3_explicit_disallow_unavailable envDisallow stateFresh 1 infoHmd
     rfl rfl rfl rfl rfl rfl rfl rfl⟩

end VDXR
